import Mathlib

/-
Verification development for `pdf-picker` (`src/pdf_picker/picker.py`).

The Python module is a thin glue script: it discovers PDF files with an
external search command, lets the user pick one through an external selector
program, extracts the table of contents via the `pymupdf` library, and
launches a viewer subprocess.  We shallow-embed the script's functions as
pure Lean functions.  External effects (running a subprocess, printing,
exiting) are made explicit:

* an `ExecEnv` describes which executables exist and what output a
  subprocess invocation produces;
* each embedded function returns its Python result together with the list of
  observable `Effect`s it performed, and a `PyResult` distinguishes normal
  return, `exit(n)`, and an uncaught Python exception;
* Python floats only ever flow through `str(...)` here, so they are modelled
  as exact rationals, rendered with a terminating-decimal printer.

Library collaborators (`shlex.split`, `re.sub` with literal-only patterns,
`re.search (backslash d)*`, `str.split`, `int(...)`, `pymupdf`) are modelled
by Lean functions reproducing their documented behaviour on the inputs this
program feeds them; deviations on inputs the program cannot produce (e.g.
unclosed shell quotes, where Python raises) are noted in comments.
-/

namespace PdfPicker

/-- Python exceptions that the embedded fragments can raise. -/
inductive PyError where
  | fileNotFound
  | valueError
  | indexError
  deriving DecidableEq, Repr

/-- Outcome of running a fragment of the script: a normal value, a process
exit with the given code (`exit(n)` / `sys.exit`), or an uncaught Python
exception. -/
inductive PyResult (α : Type) where
  | ok (a : α)
  | exit (code : Nat)
  | exc (e : PyError)
  deriving DecidableEq, Repr

/-- Observable side effects: printing to stdout and launching a subprocess
(argument vector plus the text piped to its standard input, if any). -/
inductive Effect where
  | printed (s : String)
  | ran (argv : List String) (input : Option String)
  deriving DecidableEq, Repr

/-- The world the script runs in: which executables exist (`subprocess.run`
raises `FileNotFoundError` for a missing `argv[0]`) and the stdout an
available command produces for a given argument vector and stdin text. -/
structure ExecEnv where
  available : String → Bool
  output : List String → Option String → String

/-! ### String helpers mirroring the Python standard library -/

/-- Python's `"\n".join(items)`. -/
def joinNl : List String → String
  | [] => ""
  | [s] => s
  | s :: s' :: rest => s ++ "\n" ++ joinNl (s' :: rest)

/-- Split a character list at every newline (`str.split("\n")` on the
character level): always returns one more piece than there are newlines. -/
def splitNlChars : List Char → List (List Char)
  | [] => [[]]
  | '\n' :: rest => [] :: splitNlChars rest
  | c :: rest =>
    match splitNlChars rest with
    | [] => [[c]]
    | l :: ls => (c :: l) :: ls

/-- Python's `s.split("\n")[:-1]`, the idiom the script uses to turn captured
stdout into a list of lines (dropping the piece after the final newline). -/
def splitLinesInit (s : String) : List String :=
  ((splitNlChars s.data).dropLast).map (fun l => String.mk l)

/-- Whitespace stripped by Python's `int(str)` and `str.strip()` (ASCII part). -/
def isPyWs (c : Char) : Bool :=
  c == ' ' || c == '\t' || c == '\n' || c == '\r' || c == '\x0b' || c == '\x0c'

/-- Strip leading and trailing Python whitespace from a character list. -/
def pyStrip (cs : List Char) : List Char :=
  ((cs.dropWhile isPyWs).reverse.dropWhile isPyWs).reverse

/-- Continue parsing a digit group after at least one digit has been read.
Python's `int(str)` accepts single underscores, but only between digits. -/
def digitGroupGo (acc : Nat) : List Char → Option Nat
  | [] => some acc
  | '_' :: c :: cs =>
    if c.isDigit then digitGroupGo (acc * 10 + (c.toNat - 48)) cs else none
  | ['_'] => none
  | c :: cs =>
    if c.isDigit then digitGroupGo (acc * 10 + (c.toNat - 48)) cs else none

/-- Parse a full digit group (the part of an `int(...)` literal after the
optional sign): at least one digit, underscores only between digits. -/
def digitGroupVal : List Char → Option Nat
  | [] => none
  | c :: cs => if c.isDigit then digitGroupGo (c.toNat - 48) cs else none

/-- Python's `int(s)` for a decimal string: strips whitespace, takes an
optional sign, then a digit group; anything else raises `ValueError`.
(Only ASCII digits/whitespace are modelled; the selector protocol never
produces other numerals.) -/
def pyInt (s : String) : Except PyError Int :=
  match pyStrip s.data with
  | '+' :: cs =>
    match digitGroupVal cs with
    | some n => .ok (Int.ofNat n)
    | none => .error .valueError
  | '-' :: cs =>
    match digitGroupVal cs with
    | some n => .ok (-(Int.ofNat n))
    | none => .error .valueError
  | cs =>
    match digitGroupVal cs with
    | some n => .ok (Int.ofNat n)
    | none => .error .valueError

/-- Python's `re.search(r"\d*", s).group(0)`: the pattern matches at the very
start of `s`, greedily, so the result is the leading run of digits (possibly
empty). -/
def digitRun (s : String) : String :=
  String.mk (s.data.takeWhile Char.isDigit)

/-! ### `shlex.split` (POSIX mode)

State machine over the input characters with the current quote state and the
token currently being built (`none` = between tokens).  Deviation: Python
raises `ValueError` on an unclosed quote or a trailing escape character; we
instead close the token at end of input.  No input of this program's claims
contains quotes or trailing backslashes. -/

/-- Quote state of the `shlex` lexer. -/
inductive ShQuote where
  | plain
  | single
  | double

/-- Core loop of `shlex.split` in POSIX mode with whitespace splitting. -/
def shlexGo : ShQuote → Option (List Char) → List Char → List (List Char)
  | _, none, [] => []
  | _, some t, [] => [t]
  | .plain, cur, c :: cs =>
    if c == ' ' || c == '\t' || c == '\r' || c == '\n' then
      match cur with
      | none => shlexGo .plain none cs
      | some t => t :: shlexGo .plain none cs
    else if c == '\'' then shlexGo .single (some (cur.getD [])) cs
    else if c == '"' then shlexGo .double (some (cur.getD [])) cs
    else if c == '\\' then
      match cs with
      | [] =>
        match cur with
        | none => []
        | some t => [t]
      | c2 :: cs2 => shlexGo .plain (some (cur.getD [] ++ [c2])) cs2
    else shlexGo .plain (some (cur.getD [] ++ [c])) cs
  | .single, cur, c :: cs =>
    if c == '\'' then shlexGo .plain cur cs
    else shlexGo .single (some (cur.getD [] ++ [c])) cs
  | .double, cur, c :: cs =>
    if c == '"' then shlexGo .plain cur cs
    else if c == '\\' then
      match cs with
      | [] => [cur.getD [] ++ ['\\']]
      | c2 :: cs2 =>
        if c2 == '"' || c2 == '\\' then
          shlexGo .double (some (cur.getD [] ++ [c2])) cs2
        else shlexGo .double (some (cur.getD [] ++ ['\\', c2])) cs2
    else shlexGo .double (some (cur.getD [] ++ [c])) cs

/-- Python's `shlex.split(s)` (POSIX rules, whitespace splitting). -/
def shlexSplit (s : String) : List String :=
  (shlexGo .plain none s.data).map (fun l => String.mk l)

/-! ### `re.sub` with a literal pattern

The script only substitutes the regex-escaped literals `\$page`, `\$xloc`,
`\$yloc`, and the replacement strings are decimal renderings of numbers, so
`re.sub` behaves as: replace every non-overlapping occurrence of the literal
pattern, scanning left to right. -/

/-- If `pat` is a leading piece of `s`, return the remainder. An empty `pat`
never matches here (guarded by `replaceAll`). -/
def dropLeading : List Char → List Char → Option (List Char)
  | [], rem => some rem
  | _ :: _, [] => none
  | p :: ps, c :: cs => if p == c then dropLeading ps cs else none

/-- Fuelled scanning loop for literal replacement; with fuel at least the
input length the fuel never runs out because every step consumes a
character. -/
def replaceAllGo (pat repl : List Char) : Nat → List Char → List Char
  | _, [] => []
  | 0, s => s
  | fuel + 1, c :: cs =>
    match dropLeading pat (c :: cs) with
    | some rem => repl ++ replaceAllGo pat repl fuel rem
    | none => c :: replaceAllGo pat repl fuel cs

/-- `re.sub(re.escape(pat), repl, s)` for a nonempty literal `pat` and a
replacement without regex group references. -/
def replaceAll (s pat repl : String) : String :=
  match pat.data with
  | [] => s
  | p :: ps => String.mk (replaceAllGo (p :: ps) repl.data (s.data.length + 1) s.data)

/-! ### Python numbers as they reach `str(...)`

The positions handed to the viewer are `[page, point.x, point.y]`: an `int`
and two floats.  Floats whose exact value has a terminating decimal expansion
(the only floats there are) print as that expansion with at least one
fractional digit, which is what the decimal printer below produces. -/

/-- Smallest `k ≤ 39` with `den ∣ 10 ^ k`, if any: the length of the decimal
fraction needed to print `num / den` exactly. -/
def pow10Exp (den : Nat) : Option Nat :=
  (List.range 40).find? (fun k => 10 ^ k % den == 0)

/-- Python's `str` of a float holding the exact rational `q`, assuming `q`
has a terminating decimal expansion (integer-valued floats print a trailing
`.0`, like Python).  Non-terminating rationals (not exactly representable as
floats, never produced here) fall back to a fraction rendering. -/
def floatStr (q : ℚ) : String :=
  let sign := if q.num < 0 then "-" else ""
  let a := q.num.natAbs
  match pow10Exp q.den with
  | some 0 => sign ++ toString a ++ ".0"
  | some (k + 1) =>
    let m := a * (10 ^ (k + 1) / q.den)
    let ip := m / 10 ^ (k + 1)
    let fr := toString (m % 10 ^ (k + 1))
    sign ++ toString ip ++ "." ++
      String.mk (List.replicate (k + 1 - fr.length) '0') ++ fr
  | none => sign ++ toString a ++ "/" ++ toString q.den

/-- A Python number as the script passes it to `str(...)`: an `int` or a
float (modelled by its exact rational value). -/
inductive PyNum where
  | int (n : Int)
  | float (q : ℚ)
  deriving DecidableEq, Repr

/-- Python's `str` on a `PyNum`. -/
def PyNum.str : PyNum → String
  | .int n => toString n
  | .float q => floatStr q

/-! ### The script's own helpers -/

/-- `merge_strings(*strings)` from `picker.py`: drop the `None`s and join the
rest with spaces; all-`None` yields `None`.  (Python varargs become a Lean
list.) -/
def merge_strings (strings : List (Option String)) : Option String :=
  let filtered_strings := strings.filterMap id
  if filtered_strings.isEmpty then none
  else some (String.intercalate " " filtered_strings)

/-- `send_error(error)` from `picker.py`: print the message, try to send a
desktop notification with `notify-send` (swallowing `FileNotFoundError` if it
is not installed), and `exit(1)`. -/
def send_error (α : Type) (env : ExecEnv) (error : String) :
    PyResult α × List Effect :=
  (PyResult.exit 1,
    [Effect.printed error] ++
      (if env.available "notify-send" then
        [Effect.ran ["notify-send", error] none]
      else []))

/-- `try_running_subprocess(cmd, not_found_error, input)` from `picker.py`:
run the command capturing stdout; a missing executable (`FileNotFoundError`)
is reported via `send_error`, which exits.  (`subprocess.run([])` raises an
`IndexError`; the script never builds an empty argv.) -/
def try_running_subprocess (env : ExecEnv) (cmd : List String)
    (not_found_error : String) (input : Option String) :
    PyResult String × List Effect :=
  match cmd with
  | [] => (PyResult.exc .indexError, [])
  | exe :: _ =>
    if env.available exe then
      (PyResult.ok (env.output cmd input), [Effect.ran cmd input])
    else send_error String env not_found_error

/-- `search_pdfs(base_directory, cmd, hidden)` from `picker.py`.  A custom
command goes through `try_running_subprocess` (missing executable → loud
exit).  Otherwise `fd` is run directly; a `FileNotFoundError` from it is
caught and `find` is run directly as the fallback — a `FileNotFoundError`
raised by that second call is *not* caught and propagates. -/
def search_pdfs (env : ExecEnv) (base_directory : String)
    (cmd : Option String) (hidden : Bool) :
    PyResult (List String) × List Effect :=
  match cmd with
  | some c =>
    match try_running_subprocess env (shlexSplit c) "Command not found!" none with
    | (.ok out, eff) => (PyResult.ok (splitLinesInit out), eff)
    | (.exit n, eff) => (PyResult.exit n, eff)
    | (.exc e, eff) => (PyResult.exc e, eff)
  | none =>
    let fdCmd := ["fd", "-I", "-t", "f", "-e", "pdf", "-a", ".", base_directory] ++
      (if hidden then ["-H"] else [])
    if env.available "fd" then
      (PyResult.ok (splitLinesInit (env.output fdCmd none)),
        [Effect.ran fdCmd none])
    else
      let findCmd := ["find", base_directory, "-type", "f", "-name", "*.pdf"]
      if env.available "find" then
        (PyResult.ok (splitLinesInit (env.output findCmd none)),
          [Effect.ran findCmd none])
      else (PyResult.exc .fileNotFound, [])

/-- The in-place index prefixing loop of `select`: for every `i`, replace
`items[i]` by `str(i) + "\t" + items[i]`. -/
def prefixIndices (i : Nat) : List String → List String
  | [] => []
  | s :: rest => (toString i ++ "\t" ++ s) :: prefixIndices (i + 1) rest

/-- `select(items, cmd, indices, check)` from `picker.py`.  Besides the
Python return value (or exit/exception), the result records the final
contents of the caller's `items` list — the function mutates it in place
when index prefixing is active — and the effect trace. -/
def select (env : ExecEnv) (items : List String) (cmd : Option String)
    (indices : Bool) (check : Bool) :
    PyResult Int × List String × List Effect :=
  let p := match cmd with
    | none => ("fzf --with-nth 2..", true)
    | some c => (c, indices)
  let c := p.1
  let idx := p.2
  let items' := if idx then prefixIndices 0 items else items
  let run := try_running_subprocess env (shlexSplit c)
    ("Selector (" ++ c ++ ") not found!") (some (joinNl items'))
  match run.1 with
  | .exit n => (PyResult.exit n, items', run.2)
  | .exc e => (PyResult.exc e, items', run.2)
  | .ok out =>
    let selection := if idx then digitRun out else out
    if selection = "" then
      if check then
        let se := send_error Int env "Nothing selected!"
        (se.1, items', run.2 ++ se.2)
      else (PyResult.ok (-1), items', run.2)
    else
      match pyInt selection with
      | .ok n => (PyResult.ok n, items', run.2)
      | .error e => (PyResult.exc e, items', run.2)

/-! ### The `pymupdf` collaborator

Only the parts the script touches are modelled: a document is its page list
(each page contributing its `transformation_matrix`) plus the result of
`doc.get_toc(simple=False)`; `doc.load_page` does Python-style negative
indexing and raises for an out-of-range page number.  Coordinates are exact
rationals. -/

/-- A `pymupdf.Point`. -/
structure Point where
  x : ℚ
  y : ℚ
  deriving DecidableEq, Repr

/-- A `pymupdf.Matrix` `(a, b, c, d, e, f)`. -/
structure Matrix where
  a : ℚ
  b : ℚ
  c : ℚ
  d : ℚ
  e : ℚ
  f : ℚ
  deriving DecidableEq, Repr

/-- `pymupdf` point–matrix multiplication (`point * matrix`):
`(x, y) ↦ (a·x + c·y + e, b·x + d·y + f)`. -/
def Point.mulMatrix (p : Point) (m : Matrix) : Point :=
  ⟨m.a * p.x + m.c * p.y + m.e, m.b * p.x + m.d * p.y + m.f⟩

/-- A loaded `pymupdf` page; the script only reads its
`transformation_matrix`. -/
structure PdfPage where
  transformation_matrix : Matrix
  deriving DecidableEq, Repr

/-- One element `t` of `doc.get_toc(simple=False)`:
`t[0]` = hierarchy level (1-based), `t[1]` = title, `t[2]` = target page
number (1-based), and `dest` = the optional destination point `t[3]["to"]`
(`dest = none` models the `KeyError` on a missing `"to"` key). -/
structure TocItem where
  lvl : Int
  title : String
  page : Int
  dest : Option Point
  deriving DecidableEq, Repr

/-- The opened document: its pages and its raw table of contents. -/
structure Document where
  pages : List PdfPage
  toc : List TocItem
  deriving DecidableEq, Repr

/-- `doc.load_page(i)`: 0-based page index, one round of negative indexing
from the end, raising for an index still out of range. -/
def Document.load_page (doc : Document) (i : Int) : Except PyError PdfPage :=
  let j := if i < 0 then i + doc.pages.length else i
  if h : 0 ≤ j ∧ j.toNat < doc.pages.length then
    .ok (doc.pages.get ⟨j.toNat, h.2⟩)
  else .error .valueError

/-- A TOC entry as `get_toc` returns it: the destination point is now always
present (`t[3]["to"] = coords` was executed, stored in `dest`). -/
structure TocEntryOut where
  lvl : Int
  title : String
  page : Int
  dest : Point
  deriving DecidableEq, Repr

/-- The body of the `for t in doc.get_toc(simple=False)` loop of `get_toc`
for one entry: load `doc.load_page(t[0])` — note: `t[0]` is the entry's
*level* —, default missing coordinates to `pymupdf.Point()` (the origin),
and multiply by the loaded page's `transformation_matrix` when requested. -/
def entry_out (doc : Document) (mupdf_coordinate_space : Bool) (t : TocItem) :
    Except PyError TocEntryOut :=
  match doc.load_page t.lvl with
  | .error e => .error e
  | .ok page =>
    let coords := match t.dest with
      | some p => p
      | none => Point.mk 0 0
    let coords := if mupdf_coordinate_space then
        coords.mulMatrix page.transformation_matrix
      else coords
    .ok ⟨t.lvl, t.title, t.page, coords⟩

/-- The loop of `get_toc` over the raw TOC list; an exception raised while
processing an entry propagates and discards the partial list. -/
def get_toc_go (doc : Document) (mupdf_coordinate_space : Bool) :
    List TocItem → Except PyError (List TocEntryOut)
  | [] => .ok []
  | t :: rest =>
    match entry_out doc mupdf_coordinate_space t with
    | .error e => .error e
    | .ok e =>
      match get_toc_go doc mupdf_coordinate_space rest with
      | .error err => .error err
      | .ok out => .ok (e :: out)

/-- `get_toc(path, mupdf_coordinate_space)` from `picker.py`, with the
document that `pymupdf.open(path)` yields passed directly. -/
def get_toc (doc : Document) (mupdf_coordinate_space : Bool) :
    Except PyError (List TocEntryOut) :=
  get_toc_go doc mupdf_coordinate_space doc.toc

/-! ### Viewer invocation and the tail of `main` -/

/-- The `for i in range(3)` substitution loop of `open_pdf`: replace
`"$page"`, `"$xloc"`, `"$yloc"` — in that order — by `str(position[i])`;
a position list shorter than 3 raises `IndexError`. -/
def substPositionArgs (position_args : String) (position : List PyNum) :
    Except PyError String :=
  match position.get? 0, position.get? 1, position.get? 2 with
  | some p0, some p1, some p2 =>
    .ok (replaceAll (replaceAll (replaceAll position_args "$page" p0.str)
      "$xloc" p1.str) "$yloc" p2.str)
  | _, _, _ => .error .indexError

/-- `open_pdf(path, cmd, position_args, position)` from `picker.py`.
`cmd = None` selects `zathura` and *overwrites* `position_args` with
`"-P $page"`.  Without a position the viewer gets exactly the split command
plus the path; with one, the (possibly empty) substituted template is
shell-split and appended. -/
def open_pdf (env : ExecEnv) (path : String) (cmd : Option String)
    (position_args : Option String) (position : Option (List PyNum)) :
    PyResult Unit × List Effect :=
  let p := match cmd with
    | none => ("zathura", some "-P $page")
    | some c => (c, position_args)
  let c := p.1
  let pos_args := p.2
  match position with
  | none =>
    match try_running_subprocess env (shlexSplit c ++ [path])
      ("PDF viewer (" ++ c ++ ") not found!") none with
    | (.ok _, eff) => (PyResult.ok (), eff)
    | (.exit n, eff) => (PyResult.exit n, eff)
    | (.exc e, eff) => (PyResult.exc e, eff)
  | some pos =>
    let pargs : Except PyError String :=
      match pos_args with
      | none => .ok ""
      | some pa => if pa = "" then .ok "" else substPositionArgs pa pos
    match pargs with
    | .error e => (PyResult.exc e, [])
    | .ok pa =>
      match try_running_subprocess env (shlexSplit c ++ [path] ++ shlexSplit pa)
        ("PDF viewer (" ++ c ++ ") not found!") none with
      | (.ok _, eff) => (PyResult.ok (), eff)
      | (.exit n, eff) => (PyResult.exit n, eff)
      | (.exc e, eff) => (PyResult.exc e, eff)

/-- Python's `l[i]` for `i ≥ 0` (negative indices never reach this access in
`main`, which guards with `toc_index >= 0`): raise `IndexError` when out of
range. -/
def pyListGet (α : Type) (l : List α) (i : Int) : Except PyError α :=
  let j := if i < 0 then i + l.length else i
  if h : 0 ≤ j ∧ j.toNat < l.length then .ok (l.get ⟨j.toNat, h.2⟩)
  else .error .indexError

/-- The command-line arguments of `main` that its TOC/viewer tail reads. -/
structure Args where
  no_toc : Bool
  selector : Option String
  selector_indices : Bool
  toc_selector_args : Option String
  pdf_viewer : Option String
  pdf_viewer_args : Option String

/-- The tail of `main` (picker.py lines 298–322): given the selected PDF and
its extracted TOC, either open the file plainly (empty TOC or `--no-toc`),
or run the optional (`check=False`) TOC selection and open at the chosen
entry's position — falling back to a plain open when the selection returns
the `-1` sentinel. -/
def main_open_phase (env : ExecEnv) (selected_pdf : String)
    (toc : List TocEntryOut) (args : Args) : PyResult Unit × List Effect :=
  if toc.length = 0 ∨ args.no_toc = true then
    open_pdf env selected_pdf args.pdf_viewer none none
  else
    let sel := select env (toc.map (fun t => t.title))
      (merge_strings [args.selector, args.toc_selector_args])
      args.selector_indices false
    match sel.1 with
    | .exit n => (PyResult.exit n, sel.2.2)
    | .exc e => (PyResult.exc e, sel.2.2)
    | .ok toc_index =>
      if 0 ≤ toc_index then
        match pyListGet TocEntryOut toc toc_index with
        | .error e => (PyResult.exc e, sel.2.2)
        | .ok entry =>
          let toc_position :=
            [PyNum.int entry.page, PyNum.float entry.dest.x, PyNum.float entry.dest.y]
          let op := open_pdf env selected_pdf args.pdf_viewer
            args.pdf_viewer_args (some toc_position)
          (op.1, sel.2.2 ++ op.2)
      else
        let op := open_pdf env selected_pdf args.pdf_viewer none none
        (op.1, sel.2.2 ++ op.2)

/-! ### Concrete fixtures used to instantiate the theorems -/

/-- A world with no executables at all. -/
def envC2 : ExecEnv := ⟨fun _ => false, fun _ _ => ""⟩

/-- A world with a selector `sel` whose output is `"1\tb"`. -/
def envC3 : ExecEnv := ⟨fun s => s == "sel", fun _ _ => "1\tb"⟩

/-- A world with only the default viewer `zathura` installed. -/
def envC4 : ExecEnv := ⟨fun s => s == "zathura", fun _ _ => ""⟩

/-- A world with a selector `sel` producing empty output, and `notify-send`
installed. -/
def envC5 : ExecEnv :=
  ⟨fun s => s == "sel" || s == "notify-send", fun _ _ => ""⟩

/-- A world with only a viewer `viewer` installed. -/
def envC6 : ExecEnv := ⟨fun s => s == "viewer", fun _ _ => ""⟩

/-- A world with a selector `sel` whose output is the non-integer `"abc"`. -/
def envC8a : ExecEnv := ⟨fun s => s == "sel", fun _ _ => "abc"⟩

/-- A world with a selector `sel` whose output `"x5"` has a non-integer
leading token. -/
def envC8b : ExecEnv := ⟨fun s => s == "sel", fun _ _ => "x5"⟩

/-- Another world with no executables (the default selector is missing). -/
def envC9 : ExecEnv := ⟨fun _ => false, fun _ _ => ""⟩

/-- A two-page document whose pages carry *different* transformation
matrices (page index 0: identity, page index 1: a flip), with two top-level
TOC entries targeting page numbers 1 and 2 respectively. -/
def docC1 : Document :=
  ⟨[⟨⟨1, 0, 0, 1, 0, 0⟩⟩, ⟨⟨1, 0, 0, -1, 0, 100⟩⟩],
   [⟨1, "first", 1, some ⟨10, 20⟩⟩, ⟨1, "second", 2, some ⟨30, 40⟩⟩]⟩

/-- A two-page document (identity transforms) with one TOC entry that has no
explicit destination point. -/
def docC7 : Document :=
  ⟨[⟨⟨1, 0, 0, 1, 0, 0⟩⟩, ⟨⟨1, 0, 0, 1, 0, 0⟩⟩], [⟨1, "a", 1, none⟩]⟩

/-- Default command-line arguments for the tail of `main`. -/
def argsC4 : Args := ⟨false, none, false, none, none, none⟩

/-! ### Theorems -/

/-- C1 (the code violates the claim): in `get_toc`, the page whose
`transformation_matrix` is applied is `doc.load_page(t[0])`, i.e. the page
indexed by the entry's *level*, not the entry's own destination page.  On
`docC1` with the mupdf-coordinate-space flag set, the entry targeting page
number 1 (page index 0, identity transform, under which its point (10, 20)
is fixed) comes back with point (10, 80): it was transformed by the matrix
of page index 1 — the same page used for the second entry — so the two
entries' points are not independently transformed by their own pages'
matrices. -/
theorem get_toc_level_page_confusion :
    get_toc docC1 true =
      .ok [⟨1, "first", 1, ⟨10, 80⟩⟩, ⟨1, "second", 2, ⟨30, 60⟩⟩] ∧
    docC1.load_page 0 = .ok ⟨⟨1, 0, 0, 1, 0, 0⟩⟩ ∧
    Point.mulMatrix ⟨10, 20⟩ ⟨1, 0, 0, 1, 0, 0⟩ = ⟨10, 20⟩ ∧
    (⟨10, 80⟩ : Point) ≠ ⟨10, 20⟩ := by
  refine ⟨?_, ?_, ?_, ?_⟩
  · norm_num [get_toc, get_toc_go, entry_out, Document.load_page, docC1,
      Point.mulMatrix]
  · norm_num [Document.load_page, docC1]
  · norm_num [Point.mulMatrix]
  · norm_num [Point.mk.injEq]

/-- C2 counterexample: with neither `fd` nor `find` executable, the default
search path of `search_pdfs` raises an uncaught `FileNotFoundError` — it
does not print, does not notify, and does not `exit` with a code. -/
theorem search_pdfs_no_tool_uncaught :
    search_pdfs envC2 "/home/user" none false =
      (PyResult.exc .fileNotFound, []) ∧
    (∀ n, (search_pdfs envC2 "/home/user" none false).1 ≠ PyResult.exit n) ∧
    ∀ s, Effect.printed s ∉ (search_pdfs envC2 "/home/user" none false).2 := by
  have h : search_pdfs envC2 "/home/user" none false =
      (PyResult.exc .fileNotFound, []) := by decide
  refine ⟨h, fun n hc => ?_, fun s hc => ?_⟩
  · rw [h] at hc
    simp at hc
  · rw [h] at hc
    simp at hc

/-- C2 (amended): only the custom-command path of `search_pdfs` fails
loudly.  In the default chain, a missing `fd` falls back to `find`, but when
`find` is not executable either, the `FileNotFoundError` raised by the
fallback call propagates as an uncaught exception, with no message, no
notification, and no controlled exit. -/
theorem search_pdfs_fallback_exhausted_raises (env : ExecEnv)
    (base_directory : String) (hidden : Bool)
    (hfd : env.available "fd" = false)
    (hfind : env.available "find" = false) :
    search_pdfs env base_directory none hidden =
      (PyResult.exc .fileNotFound, []) := by
  simp [search_pdfs, hfd, hfind]

/-- C2 witness: the amended theorem applied in the world with no
executables. -/
theorem search_pdfs_fallback_exhausted_raises_witness :
    envC2.available "fd" = false ∧ envC2.available "find" = false ∧
    search_pdfs envC2 "/tmp" none true = (PyResult.exc .fileNotFound, []) :=
  ⟨rfl, rfl, search_pdfs_fallback_exhausted_raises envC2 "/tmp" true rfl rfl⟩

/-- C10: `open_pdf` with `cmd = None` ignores whatever `position_args`
template the caller supplied — it behaves exactly like an explicit
`zathura` viewer with the template `"-P $page"` — so a user template can
only take effect together with an explicit viewer command. -/
theorem open_pdf_default_viewer_ignores_template (env : ExecEnv)
    (path : String) (t1 t2 : Option String) (pos : Option (List PyNum)) :
    open_pdf env path none t1 pos = open_pdf env path none t2 pos ∧
    open_pdf env path none t1 pos =
      open_pdf env path (some "zathura") (some "-P $page") pos :=
  ⟨rfl, rfl⟩

/-- Helper: running an available command captures its stdout and records the
invocation. -/
theorem try_running_ok (env : ExecEnv) (exe : String) (rest : List String)
    (not_found_error : String) (input : Option String)
    (h : env.available exe = true) :
    try_running_subprocess env (exe :: rest) not_found_error input =
      (PyResult.ok (env.output (exe :: rest) input),
        [Effect.ran (exe :: rest) input]) := by
  simp [try_running_subprocess, h]

/-- Helper: the leading digit run of the empty string is empty. -/
theorem digitRun_empty : digitRun "" = "" := rfl

/-- Helper: `int("")` raises `ValueError`. -/
theorem pyInt_empty : pyInt "" = .error .valueError := rfl

/-- C5: when the selector's stdout is empty, `select` in hard mode
(`check=True`) prints "Nothing selected!", sends a best-effort notification,
and exits with code 1, while soft mode (`check=False`) returns the `-1`
sentinel. -/
theorem select_empty_output_paths (env : ExecEnv) (items : List String)
    (c exe : String) (rest : List String) (ind : Bool)
    (hsplit : shlexSplit c = exe :: rest)
    (havail : env.available exe = true)
    (hout : env.output (exe :: rest)
      (some (joinNl (if ind then prefixIndices 0 items else items))) = "") :
    select env items (some c) ind true =
      (PyResult.exit 1, (if ind then prefixIndices 0 items else items),
        [Effect.ran (exe :: rest)
          (some (joinNl (if ind then prefixIndices 0 items else items))),
         Effect.printed "Nothing selected!"] ++
        (if env.available "notify-send" then
          [Effect.ran ["notify-send", "Nothing selected!"] none]
        else [])) ∧
    select env items (some c) ind false =
      (PyResult.ok (-1), (if ind then prefixIndices 0 items else items),
        [Effect.ran (exe :: rest)
          (some (joinNl (if ind then prefixIndices 0 items else items)))]) := by
  have hrun : try_running_subprocess env (shlexSplit c)
      ("Selector (" ++ c ++ ") not found!")
      (some (joinNl (if ind then prefixIndices 0 items else items))) =
      (PyResult.ok "",
        [Effect.ran (exe :: rest)
          (some (joinNl (if ind then prefixIndices 0 items else items)))]) := by
    rw [hsplit, try_running_ok _ _ _ _ _ havail, hout]
  constructor <;> cases ind <;>
    simp_all [select, send_error, digitRun_empty]

/-- C5 witness: the theorem at the concrete world `envC5`. -/
theorem select_empty_output_paths_witness :
    shlexSplit "sel" = ["sel"] ∧ envC5.available "sel" = true ∧
    envC5.output ["sel"] (some (joinNl ["a"])) = "" ∧
    select envC5 ["a"] (some "sel") false true =
      (PyResult.exit 1, ["a"],
        [Effect.ran ["sel"] (some "a"), Effect.printed "Nothing selected!",
         Effect.ran ["notify-send", "Nothing selected!"] none]) ∧
    select envC5 ["a"] (some "sel") false false =
      (PyResult.ok (-1), ["a"], [Effect.ran ["sel"] (some "a")]) := by
  have h := select_empty_output_paths envC5 ["a"] "sel" "sel" [] false
    (by decide) (by decide) (by decide)
  exact ⟨by decide, by decide, by decide, h.1.trans (by decide),
    h.2.trans (by decide)⟩

/-- C3: with index prefixing enabled, `select` sends the `"<index>\t"`-
prefixed items (newline-joined) to the selector, and parses the selector's
stdout by taking its leading digit run as the chosen index, ignoring any
trailing text. -/
theorem select_index_roundtrip (env : ExecEnv) (items : List String)
    (c exe : String) (rest : List String) (check : Bool) (n : Int)
    (hsplit : shlexSplit c = exe :: rest)
    (havail : env.available exe = true)
    (hparse : pyInt (digitRun (env.output (exe :: rest)
      (some (joinNl (prefixIndices 0 items))))) = .ok n) :
    select env items (some c) true check =
      (PyResult.ok n, prefixIndices 0 items,
        [Effect.ran (exe :: rest) (some (joinNl (prefixIndices 0 items)))]) := by
  have hrun : try_running_subprocess env (shlexSplit c)
      ("Selector (" ++ c ++ ") not found!")
      (some (joinNl (prefixIndices 0 items))) =
      (PyResult.ok (env.output (exe :: rest)
        (some (joinNl (prefixIndices 0 items)))),
        [Effect.ran (exe :: rest)
          (some (joinNl (prefixIndices 0 items)))]) := by
    rw [hsplit, try_running_ok _ _ _ _ _ havail]
  have hne : digitRun (env.output (exe :: rest)
      (some (joinNl (prefixIndices 0 items)))) ≠ "" := by
    intro h0
    rw [h0, pyInt_empty] at hparse
    exact Except.noConfusion hparse
  simp [select, hrun, hne, hparse]

/-- C3 witness: items `["a","b","c"]`, selector output `"1\tb"`: the list
sent to the selector is the prefixed one, the result is index 1, and index 1
selects item `"b"`. -/
theorem select_index_roundtrip_witness :
    shlexSplit "sel" = ["sel"] ∧ envC3.available "sel" = true ∧
    pyInt (digitRun (envC3.output ["sel"]
      (some (joinNl (prefixIndices 0 ["a", "b", "c"]))))) = .ok 1 ∧
    select envC3 ["a", "b", "c"] (some "sel") true false =
      (PyResult.ok 1, ["0\ta", "1\tb", "2\tc"],
        [Effect.ran ["sel"] (some "0\ta\n1\tb\n2\tc")]) ∧
    ["a", "b", "c"].get? 1 = some "b" := by
  have h := select_index_roundtrip envC3 ["a", "b", "c"] "sel" "sel" [] false 1
    (by decide) (by decide) (by rfl)
  exact ⟨by decide, by decide, by rfl, h.trans (by decide), by decide⟩

/-- C8 counterexample: with index prefixing enabled and selector output
`"x5"` (a non-integer leading token), `select` does *not* crash with a parse
failure: the leading digit run is empty, and soft mode maps it to the
handled `-1` sentinel. -/
theorem select_nonint_index_mode_handled :
    select envC8b ["a"] (some "sel") true false =
      (PyResult.ok (-1), ["0\ta"], [Effect.ran ["sel"] (some "0\ta")]) ∧
    ∀ e, (select envC8b ["a"] (some "sel") true false).1 ≠ PyResult.exc e := by
  have h : select envC8b ["a"] (some "sel") true false =
      (PyResult.ok (-1), ["0\ta"], [Effect.ran ["sel"] (some "0\ta")]) := by
    decide
  refine ⟨h, fun e hc => ?_⟩
  rw [h] at hc
  simp at hc

/-- C8 (amended): only with index prefixing *disabled* does a nonempty
selector output on which `int()` fails propagate as an uncaught
`ValueError`; with prefixing enabled such output yields an empty digit run
and is handled as an empty selection. -/
theorem select_nonint_raw_output_raises (env : ExecEnv) (items : List String)
    (c exe : String) (rest : List String) (check : Bool)
    (hsplit : shlexSplit c = exe :: rest)
    (havail : env.available exe = true)
    (hne : env.output (exe :: rest) (some (joinNl items)) ≠ "")
    (hparse : pyInt (env.output (exe :: rest) (some (joinNl items))) =
      .error .valueError) :
    select env items (some c) false check =
      (PyResult.exc .valueError, items,
        [Effect.ran (exe :: rest) (some (joinNl items))]) := by
  have hrun : try_running_subprocess env (shlexSplit c)
      ("Selector (" ++ c ++ ") not found!") (some (joinNl items)) =
      (PyResult.ok (env.output (exe :: rest) (some (joinNl items))),
        [Effect.ran (exe :: rest) (some (joinNl items))]) := by
    rw [hsplit, try_running_ok _ _ _ _ _ havail]
  simp [select, hrun, hne, hparse]

/-- C8 witness: the amended theorem at selector output `"abc"`. -/
theorem select_nonint_raw_output_raises_witness :
    shlexSplit "sel" = ["sel"] ∧ envC8a.available "sel" = true ∧
    envC8a.output ["sel"] (some (joinNl ["a"])) ≠ "" ∧
    pyInt (envC8a.output ["sel"] (some (joinNl ["a"]))) =
      .error .valueError ∧
    select envC8a ["a"] (some "sel") false true =
      (PyResult.exc .valueError, ["a"],
        [Effect.ran ["sel"] (some "a")]) := by
  have h := select_nonint_raw_output_raises envC8a ["a"] "sel" "sel" [] true
    (by decide) (by decide) (by decide) (by rfl)
  exact ⟨by decide, by decide, by decide, by rfl, h.trans (by decide)⟩

/-- Helper: prefixing an index and a tab strictly lengthens a string, so the
result is never the original string. -/
theorem tab_prefixed_ne (i : Nat) (s : String) :
    toString i ++ "\t" ++ s ≠ s := by
  intro h
  have hlen := congrArg String.length h
  simp [String.length_append, show ("\t").length = 1 from rfl] at hlen

/-- C9: whenever index prefixing is active — requested explicitly, or forced
by the default `fzf` selector when `cmd` is `None` — `select` leaves the
caller's `items` list permanently rewritten to the `"<index>\t"`-prefixed
strings: the mutated list is what the caller observes after `select`
returns, and it differs from the original whenever `items` is nonempty. -/
theorem select_prefix_mutation (env : ExecEnv) (items : List String)
    (cmd : Option String) (ind check : Bool)
    (h : cmd = none ∨ ind = true) :
    (select env items cmd ind check).2.1 = prefixIndices 0 items ∧
    (items ≠ [] → (select env items cmd ind check).2.1 ≠ items) := by
  have hidx : (match cmd with
      | none => ("fzf --with-nth 2..", true)
      | some c => (c, ind)).2 = true := by
    rcases h with h | h
    · subst h; rfl
    · cases cmd <;> simp [h]
  have key : (select env items cmd ind check).2.1 = prefixIndices 0 items := by
    simp only [select]
    simp only [hidx, if_true]
    repeat first
      | rfl
      | split
  refine ⟨key, fun hne hcontra => ?_⟩
  rw [key] at hcontra
  cases items with
  | nil => exact hne rfl
  | cons x xs =>
    simp [prefixIndices] at hcontra
    exact tab_prefixed_ne 0 x hcontra.1

/-- C9 witness: the default selector (`cmd = None`) on `["a"]` leaves the
caller's list as `["0\ta"]`. -/
theorem select_prefix_mutation_witness :
    (select envC9 ["a"] none false true).2.1 = ["0\ta"] ∧
    (select envC9 ["a"] none false true).2.1 ≠ ["a"] := by
  have h := select_prefix_mutation envC9 ["a"] none false true (Or.inl rfl)
  exact ⟨h.1.trans (by decide), h.2 (by decide)⟩

/-- Helper: `shlex.split("")` is the empty argument list. -/
theorem shlexSplit_empty : shlexSplit "" = [] := rfl

/-- C6: `open_pdf` with a position and a nonempty template substitutes
`$page`, `$xloc`, `$yloc` (in that order) by the decimal string forms of the
three position components and appends the shell-split result after the file
path; an empty template yields zero positional arguments even though a
position is known. -/
theorem open_pdf_position_templating (env : ExecEnv) (path c exe : String)
    (rest : List String) (pa : String) (p0 p1 p2 : PyNum)
    (hsplit : shlexSplit c = exe :: rest)
    (havail : env.available exe = true)
    (hpa : pa ≠ "") :
    open_pdf env path (some c) (some pa) (some [p0, p1, p2]) =
      (PyResult.ok (),
        [Effect.ran (exe :: (rest ++ [path] ++ shlexSplit
          (replaceAll (replaceAll (replaceAll pa "$page" p0.str)
            "$xloc" p1.str) "$yloc" p2.str))) none]) ∧
    open_pdf env path (some c) (some "") (some [p0, p1, p2]) =
      (PyResult.ok (), [Effect.ran (exe :: (rest ++ [path])) none]) := by
  constructor
  · have hargv : shlexSplit c ++ [path] ++ shlexSplit
        (replaceAll (replaceAll (replaceAll pa "$page" p0.str)
          "$xloc" p1.str) "$yloc" p2.str) =
        exe :: (rest ++ [path] ++ shlexSplit
          (replaceAll (replaceAll (replaceAll pa "$page" p0.str)
            "$xloc" p1.str) "$yloc" p2.str)) := by
      rw [hsplit]
      simp
    simp [open_pdf, substPositionArgs, hpa, hargv,
      try_running_ok _ _ _ _ _ havail]
  · have hargv : shlexSplit c ++ [path] ++ shlexSplit "" =
        exe :: (rest ++ [path]) := by
      rw [hsplit, shlexSplit_empty]
      simp
    simp [open_pdf, hargv, try_running_ok _ _ _ _ _ havail]

/-- C6 witness: template `"--page $page --xloc $xloc --yloc $yloc"` with
position `(3, 10.5, 20.25)` produces the literal arguments
`--page 3 --xloc 10.5 --yloc 20.25` after the path, and the empty template
produces none.  (`10.5` and `20.25` are the rationals `21/2` and `81/4`.) -/
theorem open_pdf_position_templating_witness :
    (10.5 : ℚ) = ⟨21, 2, by decide, by decide⟩ ∧
    (20.25 : ℚ) = ⟨81, 4, by decide, by decide⟩ ∧
    open_pdf envC6 "f.pdf" (some "viewer")
      (some "--page $page --xloc $xloc --yloc $yloc")
      (some [PyNum.int 3, PyNum.float ⟨21, 2, by decide, by decide⟩,
        PyNum.float ⟨81, 4, by decide, by decide⟩]) =
      (PyResult.ok (),
        [Effect.ran ["viewer", "f.pdf", "--page", "3", "--xloc", "10.5",
          "--yloc", "20.25"] none]) ∧
    open_pdf envC6 "f.pdf" (some "viewer") (some "")
      (some [PyNum.int 3, PyNum.float ⟨21, 2, by decide, by decide⟩,
        PyNum.float ⟨81, 4, by decide, by decide⟩]) =
      (PyResult.ok (), [Effect.ran ["viewer", "f.pdf"] none]) := by
  have h := open_pdf_position_templating envC6 "f.pdf" "viewer" "viewer" []
    "--page $page --xloc $xloc --yloc $yloc" (PyNum.int 3)
    (PyNum.float ⟨21, 2, by decide, by decide⟩)
    (PyNum.float ⟨81, 4, by decide, by decide⟩)
    (by decide) (by decide) (by decide)
  refine ⟨?_, ?_, h.1.trans (by decide), h.2.trans (by decide)⟩
  · norm_num [Rat.mk'_eq_divInt, Rat.divInt_eq_div]
  · norm_num [Rat.mk'_eq_divInt, Rat.divInt_eq_div]

/-- Helper: pointwise description of a successful `get_toc_go` run — the
output has one entry per input entry, and an input entry without an explicit
destination point contributes the (possibly transformed) origin. -/
theorem get_toc_go_spec (doc : Document) (flag : Bool) :
    ∀ (l : List TocItem) (out : List TocEntryOut),
      get_toc_go doc flag l = .ok out →
      out.length = l.length ∧
      ∀ (i : Nat) (hi : i < l.length) (hi' : i < out.length) (pg : PdfPage),
        (l.get ⟨i, hi⟩).dest = none →
        doc.load_page (l.get ⟨i, hi⟩).lvl = .ok pg →
        (out.get ⟨i, hi'⟩).dest =
          (if flag then (Point.mk 0 0).mulMatrix pg.transformation_matrix
           else Point.mk 0 0) := by
  intro l
  induction l with
  | nil =>
    intro out h
    simp only [get_toc_go] at h
    cases h
    exact ⟨rfl, fun i hi => absurd hi (by simp)⟩
  | cons t rest ih =>
    intro out h
    simp only [get_toc_go] at h
    cases hE : entry_out doc flag t with
    | error e => rw [hE] at h; cases h
    | ok e0 =>
      rw [hE] at h
      cases hG : get_toc_go doc flag rest with
      | error err => rw [hG] at h; cases h
      | ok out' =>
        rw [hG] at h
        cases h
        obtain ⟨hlen, hpt⟩ := ih out' hG
        refine ⟨by simp [hlen], ?_⟩
        intro i hi hi' pg hdest hload
        cases i with
        | zero =>
          simp only [List.get] at hdest hload ⊢
          unfold entry_out at hE
          rw [hload, hdest] at hE
          cases hE
          simp
        | succ j =>
          simp only [List.length_cons] at hi hi'
          simp only [List.get] at hdest hload ⊢
          exact hpt j (by omega) (by omega) pg hdest hload

/-- C7: every entry of a successfully extracted TOC is present in the
output, and an entry lacking an explicit destination point receives the
substituted zero point `pymupdf.Point()` (transformed by the loaded page's
matrix only when the mupdf-coordinate-space flag is set): no entry of the
returned list is left without a coordinate pair (the output type carries a
point for every entry). -/
theorem get_toc_missing_dest_zero (doc : Document) (flag : Bool)
    (out : List TocEntryOut) (h : get_toc doc flag = .ok out) :
    out.length = doc.toc.length ∧
    ∀ (i : Nat) (hi : i < doc.toc.length) (hi' : i < out.length)
      (pg : PdfPage),
      (doc.toc.get ⟨i, hi⟩).dest = none →
      doc.load_page (doc.toc.get ⟨i, hi⟩).lvl = .ok pg →
      (out.get ⟨i, hi'⟩).dest =
        (if flag then (Point.mk 0 0).mulMatrix pg.transformation_matrix
         else Point.mk 0 0) :=
  get_toc_go_spec doc flag doc.toc out h

/-- C7 witness: the theorem applied to `docC7`, whose only TOC entry has no
explicit destination; with the flag off, the extracted entry's point is
exactly (0, 0). -/
theorem get_toc_missing_dest_zero_witness :
    get_toc docC7 false = .ok [⟨1, "a", 1, ⟨0, 0⟩⟩] ∧
    (docC7.toc.get ⟨0, by decide⟩).dest = none ∧
    docC7.load_page 1 = .ok ⟨⟨1, 0, 0, 1, 0, 0⟩⟩ ∧
    ([(⟨1, "a", 1, ⟨0, 0⟩⟩ : TocEntryOut)].get ⟨0, by decide⟩).dest =
      Point.mk 0 0 := by
  have hok : get_toc docC7 false = .ok [⟨1, "a", 1, ⟨0, 0⟩⟩] := by
    norm_num [get_toc, get_toc_go, entry_out, Document.load_page, docC7]
  have h := get_toc_missing_dest_zero docC7 false [⟨1, "a", 1, ⟨0, 0⟩⟩] hok
  have h0 := h.2 0 (by decide) (by decide) ⟨⟨1, 0, 0, 1, 0, 0⟩⟩ rfl
    (by norm_num [Document.load_page, docC7])
  exact ⟨hok, rfl, by norm_num [Document.load_page, docC7], h0.trans (by simp)⟩

/-- Helper: a position-less `open_pdf` runs exactly the shell-split viewer
command (defaulting to `zathura`) followed by the file path, with no
positional arguments. -/
theorem open_pdf_plain_run (env : ExecEnv) (path : String)
    (cmd : Option String) (exe : String) (rest : List String)
    (hsplit : shlexSplit (cmd.getD "zathura") = exe :: rest)
    (havail : env.available exe = true) :
    open_pdf env path cmd none none =
      (PyResult.ok (), [Effect.ran (exe :: (rest ++ [path])) none]) := by
  have hargv : shlexSplit (cmd.getD "zathura") ++ [path] =
      exe :: (rest ++ [path]) := by
    rw [hsplit]
    simp
  cases cmd <;>
    simp_all [open_pdf, try_running_ok _ _ _ _ _ havail]

/-- C4: whenever no TOC entry is chosen — the TOC is empty, the no-TOC flag
is set, or the soft-mode TOC selection returned the `-1` sentinel — the tail
of `main` behaves identically for every supplied positional-argument
template, and the final subprocess it runs is exactly the shell-split viewer
command plus the file path (no positional arguments, in particular no
synthetic position (0,0,0)). -/
theorem no_toc_choice_opens_plain (env : ExecEnv) (selected_pdf : String)
    (toc : List TocEntryOut) (args : Args)
    (hchoice : toc.length = 0 ∨ args.no_toc = true ∨
      (¬(toc.length = 0 ∨ args.no_toc = true) ∧
        (select env (toc.map (fun t => t.title))
          (merge_strings [args.selector, args.toc_selector_args])
          args.selector_indices false).1 = PyResult.ok (-1))) :
    (∀ t : Option String,
      main_open_phase env selected_pdf toc { args with pdf_viewer_args := t } =
        main_open_phase env selected_pdf toc args) ∧
    ∀ (exe : String) (rest : List String),
      shlexSplit (args.pdf_viewer.getD "zathura") = exe :: rest →
      env.available exe = true →
      (main_open_phase env selected_pdf toc args).1 = PyResult.ok () ∧
      (main_open_phase env selected_pdf toc args).2.getLast? =
        some (Effect.ran (exe :: (rest ++ [selected_pdf])) none) := by
  obtain ⟨no_toc, selector, selector_indices, toc_selector_args,
    pdf_viewer, pdf_viewer_args⟩ := args
  dsimp only at hchoice
  rcases hchoice with h0 | h0 | ⟨hcond, hsel⟩
  · have hmain : ∀ t : Option String,
        main_open_phase env selected_pdf toc
          ⟨no_toc, selector, selector_indices, toc_selector_args,
            pdf_viewer, t⟩ =
          open_pdf env selected_pdf pdf_viewer none none := by
      intro t
      simp [main_open_phase, h0]
    refine ⟨fun t => (hmain t).trans (hmain pdf_viewer_args).symm,
      fun exe rest hsplit havail => ?_⟩
    rw [hmain pdf_viewer_args, open_pdf_plain_run env selected_pdf pdf_viewer
      exe rest hsplit havail]
    exact ⟨rfl, rfl⟩
  · have hmain : ∀ t : Option String,
        main_open_phase env selected_pdf toc
          ⟨no_toc, selector, selector_indices, toc_selector_args,
            pdf_viewer, t⟩ =
          open_pdf env selected_pdf pdf_viewer none none := by
      intro t
      simp [main_open_phase, h0]
    refine ⟨fun t => (hmain t).trans (hmain pdf_viewer_args).symm,
      fun exe rest hsplit havail => ?_⟩
    rw [hmain pdf_viewer_args, open_pdf_plain_run env selected_pdf pdf_viewer
      exe rest hsplit havail]
    exact ⟨rfl, rfl⟩
  · have hmain : ∀ t : Option String,
        main_open_phase env selected_pdf toc
          ⟨no_toc, selector, selector_indices, toc_selector_args,
            pdf_viewer, t⟩ =
          ((open_pdf env selected_pdf pdf_viewer none none).1,
            (select env (toc.map (fun t => t.title))
              (merge_strings [selector, toc_selector_args])
              selector_indices false).2.2 ++
              (open_pdf env selected_pdf pdf_viewer none none).2) := by
      intro t
      have hcond' : ¬(toc = [] ∨ no_toc = true) := by
        simpa [List.length_eq_zero] using hcond
      simp [main_open_phase, hcond', hsel,
        show ¬(0 : Int) ≤ -1 from by decide]
    refine ⟨fun t => (hmain t).trans (hmain pdf_viewer_args).symm,
      fun exe rest hsplit havail => ?_⟩
    rw [hmain pdf_viewer_args, open_pdf_plain_run env selected_pdf pdf_viewer
      exe rest hsplit havail]
    exact ⟨rfl, by rw [List.getLast?_append_cons]; simp⟩

/-- C4 witness: an empty TOC with default arguments opens the file with
exactly `["zathura", "f.pdf"]` as the final (and only) subprocess. -/
theorem no_toc_choice_opens_plain_witness :
    (main_open_phase envC4 "f.pdf" [] argsC4).1 = PyResult.ok () ∧
    (main_open_phase envC4 "f.pdf" [] argsC4).2.getLast? =
      some (Effect.ran ["zathura", "f.pdf"] none) := by
  have h := (no_toc_choice_opens_plain envC4 "f.pdf" [] argsC4
    (Or.inl rfl)).2 "zathura" [] (by decide) (by decide)
  exact ⟨h.1, h.2⟩

end PdfPicker
